import Mathlib

/-!
# Verification of the add-on installer (`pkg/bootstrap/docker/openshift/admin.go`)

Shallow embedding of the add-on installer: the file-concatenation helper
`catFiles`, and the two installation entry points `InstallRegistry` and
`InstallRouter`.  File contents are byte lists; the filesystem is a finite
association list from paths to contents plus a set of paths at which
`os.Create` fails.  The cluster client, the certificate utility and the two
command delegates are external collaborators and are modelled as response
oracles in an `Env` record; each installer returns the trace of calls it
issued, the resulting filesystem and the Go error value (`none` = nil).
-/

namespace Origin

/-- File contents: a sequence of bytes. -/
abbrev Bytes := List Nat

/-- The filesystem visible to `catFiles`: `files` maps each existing path to
its contents (`os.Open` fails exactly on absent paths), and `createFails`
lists the paths at which `os.Create` fails. -/
structure FS where
  files : List (String × Bytes)
  createFails : List String
deriving DecidableEq, Repr

/-- Association-list lookup used for reads. -/
def lookupB : List (String × Bytes) → String → Option Bytes
  | [], _ => none
  | (q, bs) :: rest, p => if q = p then some bs else lookupB rest p

/-- Read a file: `some` contents if the path exists, `none` otherwise. -/
def fsRead (fs : FS) (p : String) : Option Bytes :=
  lookupB fs.files p

/-- Write (create or truncate-and-replace) a file. -/
def fsWrite (fs : FS) (p : String) (bs : Bytes) : FS :=
  { fs with files := (p, bs) :: fs.files.filter (fun e => e.1 ≠ p) }

/-- Append bytes to an existing file (used for `io.Copy` into an open
destination handle). -/
def fsAppend (fs : FS) (p : String) (bs : Bytes) : FS :=
  fsWrite fs p ((fsRead fs p).getD [] ++ bs)

/-- Errors produced by the modelled filesystem operations.  `io.Copy`
between an in-memory source and destination cannot fail, so the only error
the model can produce is a creation failure. -/
inductive IOErr where
  | createErr (path : String)
deriving DecidableEq, Repr

/-- The loop body of `catFiles`.  `err` is the Go variable `err` as it
stands at the top of the iteration: `nil` right after `os.Create`, and the
result of the previous `io.Copy` afterwards.  The source line
`if oerr != nil { return err }` returns `err` — not `oerr` — so a failing
`os.Open` returns whatever `err` currently holds. -/
def catFilesLoop (fs : FS) (dest : String) (err : Option IOErr) :
    List String → FS × Option IOErr
  | [] => (fs, none)
  | f :: rest =>
    match fsRead fs f with
    | none => (fs, err)
    | some content =>
      -- io.Copy(out, in): append the source bytes to the destination;
      -- on in-memory contents the copy succeeds, so err becomes nil
      catFilesLoop (fsAppend fs dest content) dest none rest

/-- `catFiles` concatenates the sources into `dest`: `os.Create(dest)`
first (truncating any prior contents), then the copy loop. -/
def catFiles (fs : FS) (dest : String) (src : List String) :
    FS × Option IOErr :=
  if dest ∈ fs.createFails then
    (fs, some (.createErr dest))
  else
    catFilesLoop (fsWrite fs dest []) dest none src

/-! ## Cluster model -/

/-- Service name constants from the source. -/
def svcDockerRegistry : String := "docker-registry"

/-- Service name constant for the router. -/
def svcRouter : String := "router"

/-- `imageFormat(tag)` from the source: the fixed image template with the
tag substituted in. -/
def imageFormat (tag : String) : String :=
  "openshift/origin-${component}:" ++ tag

/-- `serviceaccount.MakeUsername` from the Kubernetes library (external
collaborator): the username of a service account in a namespace. -/
def makeUsername (ns name : String) : String :=
  "system:serviceaccount:" ++ ns ++ ":" ++ name

/-- Errors returned by the cluster client: either a not-found error (the
one `apierrors.IsNotFound` recognises) or any other error. -/
inductive KErr where
  | notFound
  | other (msg : String)
deriving DecidableEq, Repr

/-- The `registry.RegistryConfig` struct as populated by `InstallRegistry`
(`rtype` stands for the Go field `Type`; `imageTemplateFormat` for
`ImageTemplate.Format`). -/
structure RegistryConfig where
  name : String
  rtype : String
  imageTemplateFormat : String
  ports : String
  replicas : Nat
  labels : String
  volume : String
  serviceAccount : String
deriving DecidableEq, Repr

/-- The `router.RouterConfig` struct as populated by `InstallRouter`. -/
structure RouterConfig where
  name : String
  rtype : String
  imageTemplateFormat : String
  ports : String
  replicas : Nat
  labels : String
  credentials : String
  defaultCertificate : String
  statsPort : Nat
  statsUsername : String
  hostNetwork : Bool
  hostPorts : Bool
  serviceAccount : String
deriving DecidableEq, Repr

/-- A security context constraint: the cluster-held list of authorized
identities (`Users`). -/
structure SCC where
  users : List String
deriving DecidableEq, Repr

/-- One call issued against an external collaborator, recorded in the
trace.  `getService` and `getSCC` are reads; the others mutate cluster or
delegate state. -/
inductive Call where
  | getService (ns name : String)
  | createServiceAccount (ns name : String)
  | getSCC (name : String)
  | updateSCC (name : String) (users : List String)
  | createServerCert (hostnames : List String) (certFile keyFile : String)
  | runRegistry (cfg : RegistryConfig)
  | runRouter (cfg : RouterConfig)
deriving DecidableEq, Repr

/-- Responses of the external collaborators for one run.  For the Go
idiom `x, err := call(...)`, an `Option KErr` response of `none` means
`err == nil` (success); for `svcGet`, `none` means the service was found.
On success `createCert` writes `certCrt` and `certKey` to the requested
cert and key paths. -/
structure Env where
  svcGet : String → String → Option KErr
  saCreate : String → String → Option KErr
  sccGet : String → Except KErr SCC
  sccUpdate : String → List String → Option KErr
  createCert : Option KErr
  certCrt : Bytes
  certKey : Bytes
  delegateRegistry : RegistryConfig → Option String
  delegateRouter : RouterConfig → Option String

/-- Error values returned by the installers.  Modelled from the spec:
`errors.NewError(msg).WithCause(cause)` (package `bootstrap/docker/errors`,
not under `src/`) is a wrapped error carrying a descriptive message and
the original cause; delegate errors and `catFiles` errors are passed
through unchanged (`delegate` and `ioErr` are the injections of those raw
errors into the common error type). -/
inductive OErr where
  | wrapped (msg : String) (cause : KErr)
  | ioErr (e : IOErr)
  | delegate (msg : String)
deriving DecidableEq, Repr

/-- The `RegistryConfig` literal built by `InstallRegistry`. -/
def registryConfig (tag : String) : RegistryConfig :=
  { name := "registry"
    rtype := "docker-registry"
    imageTemplateFormat := imageFormat tag
    ports := "5000"
    replicas := 1
    labels := "docker-registry=default"
    volume := "/registry"
    serviceAccount := "registry" }

/-- The `RouterConfig` literal built by `InstallRouter`. -/
def routerConfig (masterDir tag : String) : RouterConfig :=
  { name := "router"
    rtype := "haproxy-router"
    imageTemplateFormat := imageFormat tag
    ports := "80:80,443:443"
    replicas := 1
    labels := "router=<name>"
    credentials := masterDir ++ "/admin.kubeconfig"
    defaultCertificate := masterDir ++ "/router.pem"
    statsPort := 1936
    statsUsername := "admin"
    hostNetwork := true
    hostPorts := true
    serviceAccount := "router" }

/-- `InstallRegistry`: probe for the `docker-registry` service in the
`default` namespace; if found return nil; if the probe fails for a reason
other than not-found return a wrapped retrieval error; otherwise build the
registry configuration and delegate to the registry command, propagating
its error unchanged.  The function never touches the filesystem, which is
threaded through unchanged.  Returns (trace, filesystem, error). -/
def InstallRegistry (env : Env) (fs : FS) (_configDir tag : String) :
    List Call × FS × Option OErr :=
  let t0 : List Call := [.getService "default" svcDockerRegistry]
  match env.svcGet "default" svcDockerRegistry with
  | none => (t0, fs, none)
  | some e =>
    if e ≠ KErr.notFound then
      (t0, fs, some (.wrapped "error retrieving docker registry service" e))
    else
      let cfg := registryConfig tag
      match env.delegateRegistry cfg with
      | none => (t0 ++ [.runRegistry cfg], fs, none)
      | some m => (t0 ++ [.runRegistry cfg], fs, some (.delegate m))

/-- `InstallRouter`: probe for the `router` service (any probe error —
not-found or otherwise — falls through to installation); create the router
service account; read the `privileged` SCC, append the router identity to
its user list and write it back; create the server certificate (on
success the external utility writes `router.crt` / `router.key` under the
master directory); concatenate cert, key and CA cert into `router.pem`
via `catFiles`, returning its error unchanged; finally build the router
configuration and delegate to the router command.  `filepath.Join` on the
slash-free components used here is plain concatenation with "/". -/
def InstallRouter (env : Env) (fs : FS) (configDir tag hostIP : String) :
    List Call × FS × Option OErr :=
  let t0 : List Call := [.getService "default" "router"]
  match env.svcGet "default" "router" with
  | none => (t0, fs, none)
  | some _ =>
    let masterDir := configDir ++ "/master"
    let t1 := t0 ++ [.createServiceAccount "default" "router"]
    match env.saCreate "default" "router" with
    | some e => (t1, fs, some (.wrapped "cannot create router service account" e))
    | none =>
      let t2 := t1 ++ [.getSCC "privileged"]
      match env.sccGet "privileged" with
      | .error e => (t2, fs, some (.wrapped "cannot retrieve privileged SCC" e))
      | .ok scc =>
        let newUsers := scc.users ++ [makeUsername "default" "router"]
        let t3 := t2 ++ [.updateSCC "privileged" newUsers]
        match env.sccUpdate "privileged" newUsers with
        | some e => (t3, fs, some (.wrapped "cannot update privileged SCC" e))
        | none =>
          let crtFile := masterDir ++ "/router.crt"
          let keyFile := masterDir ++ "/router.key"
          let t4 := t3 ++ [.createServerCert [hostIP ++ ".xip.io"] crtFile keyFile]
          match env.createCert with
          | some e => (t4, fs, some (.wrapped "cannot create router cert" e))
          | none =>
            let fs1 := fsWrite (fsWrite fs crtFile env.certCrt) keyFile env.certKey
            let res := catFiles fs1 (masterDir ++ "/router.pem")
              [crtFile, keyFile, masterDir ++ "/ca.crt"]
            match res.2 with
            | some e => (t4, res.1, some (.ioErr e))
            | none =>
              let cfg := routerConfig masterDir tag
              let t5 := t4 ++ [.runRouter cfg]
              match env.delegateRouter cfg with
              | none => (t5, res.1, none)
              | some m => (t5, res.1, some (.delegate m))

/-! ## Filesystem lemmas -/

theorem lookupB_filter_ne (l : List (String × Bytes)) (p q : String) (h : q ≠ p) :
    lookupB (l.filter fun e => e.1 ≠ p) q = lookupB l q := by
  induction l with
  | nil => rfl
  | cons x rest ih =>
    rw [List.filter_cons]
    by_cases hxp : x.1 = p
    · rw [if_neg (by simp [hxp])]
      rw [ih]
      have hxq : ¬ (x.1 = q) := by rw [hxp]; exact fun he => h he.symm
      conv_rhs => rw [show lookupB (x :: rest) q =
        if x.1 = q then some x.2 else lookupB rest q from rfl]
      rw [if_neg hxq]
    · rw [if_pos (by simp [hxp])]
      rw [show lookupB (x :: (rest.filter fun e => e.1 ≠ p)) q =
        if x.1 = q then some x.2 else lookupB (rest.filter fun e => e.1 ≠ p) q from rfl]
      rw [show lookupB (x :: rest) q =
        if x.1 = q then some x.2 else lookupB rest q from rfl]
      rw [ih]

theorem fsRead_fsWrite_self (fs : FS) (p : String) (bs : Bytes) :
    fsRead (fsWrite fs p bs) p = some bs := by
  simp [fsRead, fsWrite, lookupB]

theorem fsRead_fsWrite_ne (fs : FS) (p q : String) (bs : Bytes) (h : q ≠ p) :
    fsRead (fsWrite fs p bs) q = fsRead fs q := by
  have hpq : p ≠ q := fun he => h he.symm
  simp only [fsRead, fsWrite, lookupB, if_neg hpq]
  exact lookupB_filter_ne fs.files p q h

theorem createFails_fsWrite (fs : FS) (p : String) (bs : Bytes) :
    (fsWrite fs p bs).createFails = fs.createFails := rfl

theorem fsWrite_fsWrite_self (fs : FS) (p : String) (v w : Bytes) :
    fsWrite (fsWrite fs p v) p w = fsWrite fs p w := by
  simp [fsWrite, List.filter_cons, List.filter_filter]

theorem fsAppend_fsWrite (fs : FS) (p : String) (v w : Bytes) :
    fsAppend (fsWrite fs p v) p w = fsWrite fs p (v ++ w) := by
  rw [fsAppend, fsRead_fsWrite_self, Option.getD_some, fsWrite_fsWrite_self]

/-- Appending a different suffix to the same prefix gives a different
path (used for the concrete file names under the master directory). -/
theorem str_append_ne (s : String) {a b : String} (h : a ≠ b) :
    s ++ a ≠ s ++ b := by
  intro heq
  apply h
  have hd : (s ++ a).data = (s ++ b).data := congrArg String.data heq
  simp only [String.data_append] at hd
  exact String.ext (List.append_cancel_left hd)

/-! ## catFiles lemmas -/

theorem catFilesLoop_step_found (fs : FS) (dest f : String) (rest : List String)
    (err : Option IOErr) (content : Bytes) (h : fsRead fs f = some content) :
    catFilesLoop fs dest err (f :: rest) =
      catFilesLoop (fsAppend fs dest content) dest none rest := by
  simp [catFilesLoop, h]

theorem catFilesLoop_step_missing (fs : FS) (dest f : String) (rest : List String)
    (err : Option IOErr) (h : fsRead fs f = none) :
    catFilesLoop fs dest err (f :: rest) = (fs, err) := by
  simp [catFilesLoop, h]

/-- A fully successful three-source run of `catFiles`: the destination is
truncated and receives the three contents in order, and nil is returned. -/
theorem catFiles3 (fs : FS) (d a b c : String) (A B C : Bytes)
    (hd : d ∉ fs.createFails)
    (hA : fsRead fs a = some A) (hB : fsRead fs b = some B)
    (hC : fsRead fs c = some C)
    (ha : a ≠ d) (hb : b ≠ d) (hc : c ≠ d) :
    catFiles fs d [a, b, c] = (fsWrite fs d (A ++ B ++ C), none) := by
  rw [catFiles, if_neg hd]
  rw [catFilesLoop_step_found _ _ _ _ _ A
    (by rw [fsRead_fsWrite_ne _ _ _ _ ha]; exact hA)]
  rw [fsAppend_fsWrite, List.nil_append]
  rw [catFilesLoop_step_found _ _ _ _ _ B
    (by rw [fsRead_fsWrite_ne _ _ _ _ hb]; exact hB)]
  rw [fsAppend_fsWrite]
  rw [catFilesLoop_step_found _ _ _ _ _ C
    (by rw [fsRead_fsWrite_ne _ _ _ _ hc]; exact hC)]
  rw [fsAppend_fsWrite]
  rfl

/-! ## Concrete fixtures used by witnesses -/

/-- An empty filesystem on which every creation succeeds. -/
def fsEmpty : FS := { files := [], createFails := [] }

/-- A filesystem holding three small source files and a destination with
pre-existing content. -/
def fsThree : FS :=
  { files := [("a", [1]), ("b", [2, 3]), ("c", []), ("d", [9, 9])]
    createFails := [] }

/-! ## Claims about catFiles -/

/-- C1: the claim states that when a source cannot be opened, `catFiles`
returns the open error as a non-nil error.  The code instead executes
`return err` — the stale variable holding the previous `io.Copy` result
(nil at every point where an open can fail) — rather than `return oerr`,
so it returns nil.  At the failing input (empty filesystem, destination
"dest" creatable, single source "missing" absent) the destination is
created empty, the remaining copies are aborted, but the returned error
is nil. -/
theorem C1_catFiles_open_failure_returns_nil :
    (catFiles fsEmpty "dest" ["missing"]).2 = none ∧
      fsRead (catFiles fsEmpty "dest" ["missing"]).1 "dest" = some [] := by
  decide

/-- C4 (amended): when the destination can be created, all three sources
exist, and no source path equals the destination path, `catFiles dest
[a, b, c]` leaves the destination holding exactly a's bytes, then b's,
then c's, and returns nil.  The distinctness premise is forced: `catFiles`
truncates the destination before reading any source, so a source aliased
to the destination is read as empty (see the counterexample). -/
theorem C4_catFiles_success (fs : FS) (d a b c : String) (A B C : Bytes)
    (hd : d ∉ fs.createFails)
    (hA : fsRead fs a = some A) (hB : fsRead fs b = some B)
    (hC : fsRead fs c = some C)
    (ha : a ≠ d) (hb : b ≠ d) (hc : c ≠ d) :
    fsRead (catFiles fs d [a, b, c]).1 d = some (A ++ B ++ C) ∧
      (catFiles fs d [a, b, c]).2 = none := by
  rw [catFiles3 fs d a b c A B C hd hA hB hC ha hb hc]
  exact ⟨fsRead_fsWrite_self _ _ _, rfl⟩

/-- Witness for C4 at a concrete filesystem. -/
theorem C4_catFiles_success_witness :
    fsRead fsThree "a" = some [1] ∧
      (fsRead (catFiles fsThree "d" ["a", "b", "c"]).1 "d" = some [1, 2, 3] ∧
        (catFiles fsThree "d" ["a", "b", "c"]).2 = none) :=
  ⟨by decide,
    C4_catFiles_success fsThree "d" "a" "b" "c" [1] [2, 3] []
      (by decide) (by decide) (by decide) (by decide)
      (by decide) (by decide) (by decide)⟩

/-- A filesystem in which the first source of the counterexample call is
the destination itself. -/
def fsAlias : FS := { files := [("d", [1]), ("b", [2]), ("c", [])], createFails := [] }

/-- Counterexample to C4 as frozen: in `catFiles "d" ["d", "b", "c"]` the
destination can be created and every source can be opened and copied
(the call returns nil and all copies run), yet the destination ends up
holding `[2]`, not the concatenation `[1] ++ [2] ++ []` of the sources'
prior bytes: the destination is truncated before the aliased source "d"
is read. -/
theorem C4_alias_counterexample :
    fsRead fsAlias "d" = some [1] ∧ fsRead fsAlias "b" = some [2] ∧
      fsRead fsAlias "c" = some [] ∧
      (catFiles fsAlias "d" ["d", "b", "c"]).2 = none ∧
      fsRead (catFiles fsAlias "d" ["d", "b", "c"]).1 "d" = some [2] ∧
      ([2] : Bytes) ≠ [1] ++ [2] ++ [] := by
  decide

/-- C9: `catFiles` truncates the destination unconditionally before
opening any source.  With zero sources the destination ends up empty and
nil is returned; and even when the first source cannot be opened, any
pre-existing destination content has already been destroyed, whatever the
remaining source list is. -/
theorem C9_catFiles_truncates (fs : FS) (d s : String) (old : Bytes)
    (hd : d ∉ fs.createFails) (hold : fsRead fs d = some old)
    (hs : fsRead fs s = none) (hsd : s ≠ d) :
    (fsRead (catFiles fs d []).1 d = some [] ∧ (catFiles fs d []).2 = none) ∧
      ∀ rest : List String, fsRead (catFiles fs d (s :: rest)).1 d = some [] := by
  refine ⟨⟨?_, ?_⟩, ?_⟩
  · rw [catFiles, if_neg hd]
    exact fsRead_fsWrite_self _ _ _
  · rw [catFiles, if_neg hd]
    rfl
  · intro rest
    rw [catFiles, if_neg hd]
    rw [catFilesLoop_step_missing _ _ _ _ _
      (by rw [fsRead_fsWrite_ne _ _ _ _ hsd]; exact hs)]
    exact fsRead_fsWrite_self _ _ _

/-- Witness for C9: "d" holds `[9, 9]` beforehand and ends up empty. -/
theorem C9_catFiles_truncates_witness :
    fsRead fsThree "d" = some [9, 9] ∧
      ((fsRead (catFiles fsThree "d" []).1 "d" = some [] ∧
          (catFiles fsThree "d" []).2 = none) ∧
        ∀ rest : List String,
          fsRead (catFiles fsThree "d" ("nope" :: rest)).1 "d" = some []) :=
  ⟨by decide,
    C9_catFiles_truncates fsThree "d" "nope" [9, 9]
      (by decide) (by decide) (by decide) (by decide)⟩

/-! ## Environment fixtures used by witnesses -/

/-- An environment in which both service probes find the service and
every other call would succeed. -/
def envFound : Env :=
  { svcGet := fun _ _ => none
    saCreate := fun _ _ => none
    sccGet := fun _ => .ok { users := ["alice"] }
    sccUpdate := fun _ _ => none
    createCert := none
    certCrt := [1]
    certKey := [2]
    delegateRegistry := fun _ => none
    delegateRouter := fun _ => none }

/-- An environment in which both service probes report not-found and
every subsequent step succeeds. -/
def envAbsent : Env :=
  { envFound with svcGet := fun _ _ => some KErr.notFound }

/-- An environment in which both service probes fail with a transport
error and every subsequent step succeeds. -/
def envBroken : Env :=
  { envFound with svcGet := fun _ _ => some (KErr.other "boom") }

/-! ## Claims about the installers -/

/-- C2: when the probe finds the target service, each installer returns
nil immediately; its whole trace is the single service lookup (so no
service-account creation, no policy read or write, no certificate
generation and no delegate invocation occur) and the filesystem is
returned unchanged (no filesystem write). -/
theorem C2_service_exists_noop (env : Env) (fs : FS) (cd tag hostIP : String)
    (hreg : env.svcGet "default" svcDockerRegistry = none)
    (hrt : env.svcGet "default" "router" = none) :
    InstallRegistry env fs cd tag =
        ([.getService "default" svcDockerRegistry], fs, none) ∧
      InstallRouter env fs cd tag hostIP =
        ([.getService "default" "router"], fs, none) := by
  constructor
  · rw [InstallRegistry, hreg]
  · rw [InstallRouter, hrt]

/-- Witness for C2 at a concrete environment whose probes find both
services. -/
theorem C2_service_exists_noop_witness :
    envFound.svcGet "default" svcDockerRegistry = none ∧
      (InstallRegistry envFound fsEmpty "cd" "v1" =
          ([.getService "default" svcDockerRegistry], fsEmpty, none) ∧
        InstallRouter envFound fsEmpty "cd" "v1" "1.2.3.4" =
          ([.getService "default" "router"], fsEmpty, none)) :=
  ⟨rfl, C2_service_exists_noop envFound fsEmpty "cd" "v1" "1.2.3.4" rfl rfl⟩

/-- C7: when the registry probe fails with an error other than
not-found, `InstallRegistry` returns the wrapped retrieval error carrying
the probe error as cause, and its trace is the probe alone — none of the
later installation steps run. -/
theorem C7_registry_probe_error (env : Env) (fs : FS) (cd tag : String)
    (e : KErr) (hprobe : env.svcGet "default" svcDockerRegistry = some e)
    (hne : e ≠ KErr.notFound) :
    InstallRegistry env fs cd tag =
      ([.getService "default" svcDockerRegistry], fs,
        some (.wrapped "error retrieving docker registry service" e)) := by
  rw [InstallRegistry, hprobe]
  simp [hne]

/-- Witness for C7 at a concrete environment whose probe fails with a
transport error. -/
theorem C7_registry_probe_error_witness :
    envBroken.svcGet "default" svcDockerRegistry = some (KErr.other "boom") ∧
      InstallRegistry envBroken fsEmpty "cd" "v1" =
        ([.getService "default" svcDockerRegistry], fsEmpty,
          some (.wrapped "error retrieving docker registry service"
            (KErr.other "boom"))) :=
  ⟨rfl, C7_registry_probe_error envBroken fsEmpty "cd" "v1"
    (KErr.other "boom") rfl (by decide)⟩

/-- C8: the router probe result is only tested for nil-ness — there is no
`IsNotFound` check — so any probe failure, not-found or otherwise, makes
`InstallRouter` proceed exactly as if the service were absent: the run is
identical to the run in an environment whose probe reports not-found. -/
theorem C8_router_probe_error_ignored (env : Env) (fs : FS)
    (cd tag hostIP : String) (e : KErr)
    (h : env.svcGet "default" "router" = some e) :
    InstallRouter env fs cd tag hostIP =
      InstallRouter { env with svcGet := fun _ _ => some KErr.notFound }
        fs cd tag hostIP := by
  rw [InstallRouter, h, InstallRouter]

/-- Witness for C8: a transport-error probe behaves like a not-found
probe. -/
theorem C8_router_probe_error_ignored_witness :
    envBroken.svcGet "default" "router" = some (KErr.other "boom") ∧
      InstallRouter envBroken fsEmpty "cd" "v1" "1.2.3.4" =
        InstallRouter { envBroken with svcGet := fun _ _ => some KErr.notFound }
          fsEmpty "cd" "v1" "1.2.3.4" :=
  ⟨rfl, C8_router_probe_error_ignored envBroken fsEmpty "cd" "v1" "1.2.3.4"
    (KErr.other "boom") rfl⟩

/-- C10: `InstallRegistry` never uses its `configDir` argument and never
touches the filesystem: its trace and returned error are identical across
any two invocations differing only in `configDir` (and in filesystem
contents), and the filesystem comes back unchanged. -/
theorem C10_registry_configdir_independent (env : Env) (fs1 fs2 : FS)
    (cd1 cd2 tag : String) :
    (InstallRegistry env fs1 cd1 tag).1 = (InstallRegistry env fs2 cd2 tag).1 ∧
      (InstallRegistry env fs1 cd1 tag).2.2 =
        (InstallRegistry env fs2 cd2 tag).2.2 ∧
      (InstallRegistry env fs1 cd1 tag).2.1 = fs1 := by
  rw [InstallRegistry, InstallRegistry]
  cases h : env.svcGet "default" svcDockerRegistry with
  | none => exact ⟨rfl, rfl, rfl⟩
  | some e =>
    by_cases hne : e ≠ KErr.notFound
    · simp [hne]
    · simp only [hne, if_false]
      cases hd : env.delegateRegistry (registryConfig tag) <;>
        exact ⟨rfl, rfl, rfl⟩

/-- C3: whenever `InstallRouter` writes the privileged security policy,
the user list it writes is exactly the list it read with the router's
identity appended, hence a superset of the prior list containing the
router identity, with no previously authorized identity removed. -/
theorem C3_scc_update_superset (env : Env) (fs : FS) (cd tag hostIP : String)
    (old us : List String)
    (hscc : env.sccGet "privileged" = .ok { users := old })
    (hmem : Call.updateSCC "privileged" us ∈
      (InstallRouter env fs cd tag hostIP).1) :
    (∀ u ∈ old, u ∈ us) ∧ makeUsername "default" "router" ∈ us := by
  have hus : us = old ++ [makeUsername "default" "router"] := by
    simp only [InstallRouter, hscc] at hmem
    repeat (any_goals split at hmem)
    all_goals simp at hmem
    all_goals exact hmem
  subst hus
  refine ⟨fun u hu => List.mem_append_left _ hu, ?_⟩
  exact List.mem_append_right _ (by simp)

/-- Witness for C3: a concrete run in which the update occurs, starting
from the prior list `["alice"]`. -/
theorem C3_scc_update_superset_witness :
    envAbsent.sccGet "privileged" = .ok { users := ["alice"] } ∧
      ((∀ u ∈ ["alice"], u ∈ ["alice", makeUsername "default" "router"]) ∧
        makeUsername "default" "router" ∈
          ["alice", makeUsername "default" "router"]) :=
  ⟨rfl, C3_scc_update_superset envAbsent fsEmpty "cd" "v1" "1.2.3.4"
    ["alice"] ["alice", makeUsername "default" "router"] rfl (by decide)⟩

/-- C6: every configuration handed to the registry delegate or the router
delegate carries the image template `"openshift/origin-${component}:"`
with the requested tag substituted in. -/
theorem C6_image_format (env : Env) (fs : FS) (cd tag hostIP : String)
    (htag : tag ≠ "") :
    (∀ cfg : RegistryConfig,
        Call.runRegistry cfg ∈ (InstallRegistry env fs cd tag).1 →
          cfg.imageTemplateFormat = "openshift/origin-${component}:" ++ tag) ∧
      (∀ cfg : RouterConfig,
        Call.runRouter cfg ∈ (InstallRouter env fs cd tag hostIP).1 →
          cfg.imageTemplateFormat = "openshift/origin-${component}:" ++ tag) := by
  constructor
  · intro cfg hmem
    simp only [InstallRegistry] at hmem
    repeat (any_goals split at hmem)
    all_goals simp at hmem
    all_goals rw [hmem]; rfl
  · intro cfg hmem
    simp only [InstallRouter] at hmem
    repeat (any_goals split at hmem)
    all_goals simp at hmem
    all_goals rw [hmem]; rfl

/-- Witness for C6 at a concrete tag. -/
theorem C6_image_format_witness :
    ("v1" : String) ≠ "" ∧
      ((∀ cfg : RegistryConfig,
          Call.runRegistry cfg ∈ (InstallRegistry envAbsent fsEmpty "cd" "v1").1 →
            cfg.imageTemplateFormat = "openshift/origin-${component}:" ++ "v1") ∧
        (∀ cfg : RouterConfig,
          Call.runRouter cfg ∈
              (InstallRouter envAbsent fsEmpty "cd" "v1" "1.2.3.4").1 →
            cfg.imageTemplateFormat = "openshift/origin-${component}:" ++ "v1")) :=
  ⟨by decide, C6_image_format envAbsent fsEmpty "cd" "v1" "1.2.3.4" (by decide)⟩

/-! ## Call counters for the exactly-once claim -/

/-- Number of service-account creations in a trace. -/
def countServiceAccountCreates : List Call → Nat
  | [] => 0
  | .createServiceAccount _ _ :: t => countServiceAccountCreates t + 1
  | .getService _ _ :: t => countServiceAccountCreates t
  | .getSCC _ :: t => countServiceAccountCreates t
  | .updateSCC _ _ :: t => countServiceAccountCreates t
  | .createServerCert _ _ _ :: t => countServiceAccountCreates t
  | .runRegistry _ :: t => countServiceAccountCreates t
  | .runRouter _ :: t => countServiceAccountCreates t

/-- Number of security-policy reads in a trace. -/
def countSCCReads : List Call → Nat
  | [] => 0
  | .getSCC _ :: t => countSCCReads t + 1
  | .getService _ _ :: t => countSCCReads t
  | .createServiceAccount _ _ :: t => countSCCReads t
  | .updateSCC _ _ :: t => countSCCReads t
  | .createServerCert _ _ _ :: t => countSCCReads t
  | .runRegistry _ :: t => countSCCReads t
  | .runRouter _ :: t => countSCCReads t

/-- Number of security-policy writes in a trace. -/
def countSCCWrites : List Call → Nat
  | [] => 0
  | .updateSCC _ _ :: t => countSCCWrites t + 1
  | .getService _ _ :: t => countSCCWrites t
  | .createServiceAccount _ _ :: t => countSCCWrites t
  | .getSCC _ :: t => countSCCWrites t
  | .createServerCert _ _ _ :: t => countSCCWrites t
  | .runRegistry _ :: t => countSCCWrites t
  | .runRouter _ :: t => countSCCWrites t

/-- Number of certificate generations in a trace. -/
def countCertGens : List Call → Nat
  | [] => 0
  | .createServerCert _ _ _ :: t => countCertGens t + 1
  | .getService _ _ :: t => countCertGens t
  | .createServiceAccount _ _ :: t => countCertGens t
  | .getSCC _ :: t => countCertGens t
  | .updateSCC _ _ :: t => countCertGens t
  | .runRegistry _ :: t => countCertGens t
  | .runRouter _ :: t => countCertGens t

/-- Number of router-delegate invocations in a trace. -/
def countRouterRuns : List Call → Nat
  | [] => 0
  | .runRouter _ :: t => countRouterRuns t + 1
  | .getService _ _ :: t => countRouterRuns t
  | .createServiceAccount _ _ :: t => countRouterRuns t
  | .getSCC _ :: t => countRouterRuns t
  | .updateSCC _ _ :: t => countRouterRuns t
  | .createServerCert _ _ _ :: t => countRouterRuns t
  | .runRegistry _ :: t => countRouterRuns t

/-- Number of registry-delegate invocations in a trace. -/
def countRegistryRuns : List Call → Nat
  | [] => 0
  | .runRegistry _ :: t => countRegistryRuns t + 1
  | .getService _ _ :: t => countRegistryRuns t
  | .createServiceAccount _ _ :: t => countRegistryRuns t
  | .getSCC _ :: t => countRegistryRuns t
  | .updateSCC _ _ :: t => countRegistryRuns t
  | .createServerCert _ _ _ :: t => countRegistryRuns t
  | .runRouter _ :: t => countRegistryRuns t

/-- C5: in a run where the target service is absent and every step
succeeds, the router path performs exactly one service-account creation,
one policy read, one policy write, one certificate generation and one
router-delegate invocation, and the registry path performs exactly one
registry-delegate invocation. -/
theorem C5_absent_exactly_once (env : Env) (fs : FS) (cd tag hostIP : String)
    (scc : SCC) (CA : Bytes)
    (hrt : env.svcGet "default" "router" = some KErr.notFound)
    (hsa : env.saCreate "default" "router" = none)
    (hscc : env.sccGet "privileged" = .ok scc)
    (hupd : env.sccUpdate "privileged"
      (scc.users ++ [makeUsername "default" "router"]) = none)
    (hcert : env.createCert = none)
    (hpem : (cd ++ "/master") ++ "/router.pem" ∉ fs.createFails)
    (hca : fsRead fs ((cd ++ "/master") ++ "/ca.crt") = some CA)
    (hdel : env.delegateRouter (routerConfig (cd ++ "/master") tag) = none)
    (hreg : env.svcGet "default" svcDockerRegistry = some KErr.notFound)
    (hregdel : env.delegateRegistry (registryConfig tag) = none) :
    (countServiceAccountCreates (InstallRouter env fs cd tag hostIP).1 = 1 ∧
      countSCCReads (InstallRouter env fs cd tag hostIP).1 = 1 ∧
      countSCCWrites (InstallRouter env fs cd tag hostIP).1 = 1 ∧
      countCertGens (InstallRouter env fs cd tag hostIP).1 = 1 ∧
      countRouterRuns (InstallRouter env fs cd tag hostIP).1 = 1) ∧
      countRegistryRuns (InstallRegistry env fs cd tag).1 = 1 := by
  have hck : (cd ++ "/master") ++ "/router.crt" ≠
      (cd ++ "/master") ++ "/router.key" := str_append_ne _ (by decide)
  have hcp : (cd ++ "/master") ++ "/router.crt" ≠
      (cd ++ "/master") ++ "/router.pem" := str_append_ne _ (by decide)
  have hkp : (cd ++ "/master") ++ "/router.key" ≠
      (cd ++ "/master") ++ "/router.pem" := str_append_ne _ (by decide)
  have hac : (cd ++ "/master") ++ "/ca.crt" ≠
      (cd ++ "/master") ++ "/router.crt" := str_append_ne _ (by decide)
  have hak : (cd ++ "/master") ++ "/ca.crt" ≠
      (cd ++ "/master") ++ "/router.key" := str_append_ne _ (by decide)
  have hap : (cd ++ "/master") ++ "/ca.crt" ≠
      (cd ++ "/master") ++ "/router.pem" := str_append_ne _ (by decide)
  have h3 : catFiles
      (fsWrite (fsWrite fs ((cd ++ "/master") ++ "/router.crt") env.certCrt)
        ((cd ++ "/master") ++ "/router.key") env.certKey)
      ((cd ++ "/master") ++ "/router.pem")
      [(cd ++ "/master") ++ "/router.crt", (cd ++ "/master") ++ "/router.key",
        (cd ++ "/master") ++ "/ca.crt"] =
      (fsWrite
        (fsWrite (fsWrite fs ((cd ++ "/master") ++ "/router.crt") env.certCrt)
          ((cd ++ "/master") ++ "/router.key") env.certKey)
        ((cd ++ "/master") ++ "/router.pem")
        (env.certCrt ++ env.certKey ++ CA), none) := by
    apply catFiles3
    · rw [createFails_fsWrite, createFails_fsWrite]; exact hpem
    · rw [fsRead_fsWrite_ne _ _ _ _ hck, fsRead_fsWrite_self]
    · exact fsRead_fsWrite_self _ _ _
    · rw [fsRead_fsWrite_ne _ _ _ _ hak, fsRead_fsWrite_ne _ _ _ _ hac]
      exact hca
    · exact hcp
    · exact hkp
    · exact hap
  have htr : (InstallRouter env fs cd tag hostIP).1 =
      [.getService "default" "router",
        .createServiceAccount "default" "router",
        .getSCC "privileged",
        .updateSCC "privileged" (scc.users ++ [makeUsername "default" "router"]),
        .createServerCert [hostIP ++ ".xip.io"]
          ((cd ++ "/master") ++ "/router.crt") ((cd ++ "/master") ++ "/router.key"),
        .runRouter (routerConfig (cd ++ "/master") tag)] := by
    simp only [InstallRouter, hrt, hsa, hscc, hupd, hcert, h3, hdel]
    rfl
  have hrtr : (InstallRegistry env fs cd tag).1 =
      [.getService "default" svcDockerRegistry,
        .runRegistry (registryConfig tag)] := by
    simp only [InstallRegistry, hreg, hregdel]
    simp
  rw [htr, hrtr]
  refine ⟨⟨?_, ?_, ?_, ?_, ?_⟩, ?_⟩ <;>
    simp [countServiceAccountCreates, countSCCReads, countSCCWrites,
      countCertGens, countRouterRuns, countRegistryRuns]

/-- A filesystem holding the CA certificate needed by a full router
install run with config directory "c". -/
def fsCA : FS := { files := [("c/master/ca.crt", [7])], createFails := [] }

/-- Witness for C5: a concrete fully-successful run. -/
theorem C5_absent_exactly_once_witness :
    envAbsent.svcGet "default" "router" = some KErr.notFound ∧
      ((countServiceAccountCreates
            (InstallRouter envAbsent fsCA "c" "v1" "1.2.3.4").1 = 1 ∧
          countSCCReads (InstallRouter envAbsent fsCA "c" "v1" "1.2.3.4").1 = 1 ∧
          countSCCWrites (InstallRouter envAbsent fsCA "c" "v1" "1.2.3.4").1 = 1 ∧
          countCertGens (InstallRouter envAbsent fsCA "c" "v1" "1.2.3.4").1 = 1 ∧
          countRouterRuns (InstallRouter envAbsent fsCA "c" "v1" "1.2.3.4").1 = 1) ∧
        countRegistryRuns (InstallRegistry envAbsent fsCA "c" "v1").1 = 1) :=
  ⟨rfl, C5_absent_exactly_once envAbsent fsCA "c" "v1" "1.2.3.4"
    { users := ["alice"] } [7] rfl rfl rfl rfl rfl
    (by decide) (by decide) rfl rfl rfl⟩

end Origin
